import Mathlib

/-!
Shallow embedding of the hybrid sports-betting expert system
(`knowledge_model.py`, `rules_engine.py`, `bayesian_model.py`, `main.py`).
Python floats are modelled as rationals; Python dicts with possibly missing
keys are modelled as `Option` fields or association lists; raised exceptions
are modelled with `Except`.
-/

namespace SportsExpert

/-- Clamp to `[0,1]`: models `max(0.0, min(1.0, float(x)))` used in
`TeamFact.from_team_summary` (knowledge_model.py). -/
def clamp01 (x : Rat) : Rat := max 0 (min 1 x)

/-- Team profile fact (`TeamFact` in knowledge_model.py). -/
structure TeamFact where
  team : String
  attacking_strength : Rat
  defensive_strength : Rat
  overall_strength : Rat
  goals_per_match : Rat
  goals_conceded_per_match : Rat
  goal_difference_per_match : Rat
  discipline_rating : Rat
  team_style : String
  cleansheet_rate : Rat
deriving DecidableEq

/-- A raw team summary map (input of `TeamFact.from_team_summary`);
`Option` models dictionary keys that may be absent. -/
structure TeamSummary where
  team : Option String := none
  attacking_strength : Option Rat := none
  defensive_strength : Option Rat := none
  overall_strength : Option Rat := none
  goals_per_match : Option Rat := none
  goals_conceded_per_match : Option Rat := none
  goal_difference_per_match : Option Rat := none
  discipline_rating : Option Rat := none
  team_style : Option String := none
  cleansheet_rate : Option Rat := none
deriving DecidableEq

/-- Model of `TeamFact.from_team_summary` (knowledge_model.py lines 99-140): requires
`team`, `attacking_strength`, `defensive_strength`, `overall_strength`;
clamps the strength-like fields (and `discipline_rating` when present) to
`[0,1]`; fills the documented defaults for the remaining fields.  The
`ValueError` raised on a missing required field is modelled with `Except`. -/
def from_team_summary (s : TeamSummary) : Except String TeamFact :=
  match s.team, s.attacking_strength, s.defensive_strength, s.overall_strength with
  | some team, some att, some defe, some ov =>
    .ok { team := team
          attacking_strength := clamp01 att
          defensive_strength := clamp01 defe
          overall_strength := clamp01 ov
          goals_per_match := s.goals_per_match.getD (3/2)
          goals_conceded_per_match := s.goals_conceded_per_match.getD 1
          goal_difference_per_match := s.goal_difference_per_match.getD 0
          discipline_rating := match s.discipline_rating with
            | some d => clamp01 d
            | none => 1/2
          team_style := s.team_style.getD "balanced"
          cleansheet_rate := s.cleansheet_rate.getD 0 }
  | _, _, _, _ => .error "Campo obligatorio no presente en team_summary"

/-- Matchup fact (`MatchupFact` in knowledge_model.py). -/
structure MatchupFact where
  home_team : String
  away_team : String
  attacking_advantage : String
  attacking_margin : Rat
  defensive_advantage : String
  defensive_margin : Rat
  overall_advantage : String
  overall_margin : Rat
  clear_favorite : String
  match_type : String
deriving DecidableEq

/-- Model of `FactBuilder.create_matchup_fact` (knowledge_model.py lines 492-558):
derives advantages, margins, clear favorite and match type from the two
team facts. -/
def create_matchup_fact (home_team away_team : String)
    (home_facts away_facts : TeamFact) : MatchupFact :=
  let attacking_diff := home_facts.attacking_strength - away_facts.attacking_strength
  let defensive_diff := home_facts.defensive_strength - away_facts.defensive_strength
  let overall_diff := home_facts.overall_strength - away_facts.overall_strength
  let attacking_advantage :=
    if |attacking_diff| > 1/20 then
      (if attacking_diff > 0 then home_team else away_team) else ""
  let defensive_advantage :=
    if |defensive_diff| > 1/20 then
      (if defensive_diff > 0 then home_team else away_team) else ""
  let overall_advantage :=
    if |overall_diff| > 1/20 then
      (if overall_diff > 0 then home_team else away_team) else ""
  let clear_favorite :=
    if |overall_diff| > 1/20 then
      (if |overall_diff| > 3/20 then overall_advantage else "") else ""
  let avg_attacking := (home_facts.attacking_strength + away_facts.attacking_strength) / 2
  let avg_defensive := (home_facts.defensive_strength + away_facts.defensive_strength) / 2
  let mt0 :=
    if avg_attacking > avg_defensive + 1/10 then "attack_focused"
    else if avg_defensive > avg_attacking + 1/10 then "defense_focused"
    else "balanced"
  let match_type :=
    if home_facts.team_style = "offensive" ∨ away_facts.team_style = "offensive" then
      (if mt0 = "balanced" then "attack_focused" else mt0)
    else if home_facts.team_style = "defensive" ∧ away_facts.team_style = "defensive" then
      "defense_focused"
    else mt0
  { home_team := home_team, away_team := away_team
    attacking_advantage := attacking_advantage, attacking_margin := |attacking_diff|
    defensive_advantage := defensive_advantage, defensive_margin := |defensive_diff|
    overall_advantage := overall_advantage, overall_margin := |overall_diff|
    clear_favorite := clear_favorite, match_type := match_type }

/-- Recommendation fact (`BetRecommendationFact` in knowledge_model.py);
the informational `timestamp` field is omitted. -/
structure BetRecommendationFact where
  bet_type : String
  home_team : String
  away_team : String
  recommendation : String
  confidence : String
  probability : Rat
  explanation : String
  rules_fired : List String
deriving DecidableEq

/-- Model of `BetRecommendationFact.create` (knowledge_model.py lines 342-380):
validates the confidence and decision enums, raising `ValueError`
(modelled with `Except`) on out-of-enum values. -/
def bet_recommendation_create (bet_type home_team away_team recommendation
    confidence : String) (probability : Rat) (explanation : String)
    (rules_fired : List String) : Except String BetRecommendationFact :=
  if ¬(confidence = "high" ∨ confidence = "medium" ∨ confidence = "low") then
    .error ("Nivel de confianza inválido: " ++ confidence)
  else if ¬(recommendation = "recommended" ∨ recommendation = "not_recommended") then
    .error ("Recomendación inválida: " ++ recommendation)
  else
    .ok { bet_type := bet_type, home_team := home_team, away_team := away_team
          recommendation := recommendation, confidence := confidence
          probability := probability, explanation := explanation
          rules_fired := rules_fired }

/-- The probability assigned from the confidence level in
`BettingExpertSystem._create_recommendation` (rules_engine.py):
`probability_map = {high: 0.75, medium: 0.60, low: 0.55}` with
`dict.get` default `0.50`. -/
def probability_map (confidence : String) : Rat :=
  if confidence = "high" then 3/4
  else if confidence = "medium" then 6/10
  else if confidence = "low" then 11/20
  else 1/2

/-- Model of `BettingExpertSystem._create_recommendation` (rules_engine.py lines
492-533): computes the probability from the confidence, creates the fact and
appends it to `self.recommendations` (the rule-firing counter, which has no
bearing on the produced facts, is not modelled). -/
def create_recommendation (recommendations : List BetRecommendationFact)
    (bet_type home_team away_team recommendation confidence explanation
     rule_name : String) : Except String (List BetRecommendationFact) :=
  (bet_recommendation_create bet_type home_team away_team recommendation
      confidence (probability_map confidence) explanation [rule_name]).map
    (fun f => recommendations ++ [f])

/-- One rule of the catalogue in rules_engine.py, reduced to the data that
its action passes to `_create_recommendation`: the rule name, the bet type
and the literal decision argument. -/
structure CatalogueRule where
  name : String
  bet_type : String
  decision : String
deriving DecidableEq

/-- The eleven recommendation-producing rules of `BettingExpertSystem`
(rules_engine.py), in source order, with the literal `recommendation=`
argument each action passes to `_create_recommendation`.  The twelfth rule
(`low_discipline_warning`) only stores a warning string and creates no
recommendation fact. -/
def rule_catalogue : List CatalogueRule :=
  [⟨"ClearFavoriteHomeWin", "home_win", "recommended"⟩,
   ⟨"StrongHomeAttackVsWeakAwayDefense", "home_win", "recommended"⟩,
   ⟨"OffensiveHomeVsDefensiveAway", "home_win", "recommended"⟩,
   ⟨"ClearFavoriteAwayWin", "away_win", "recommended"⟩,
   ⟨"DominantAwayTeam", "away_win", "recommended"⟩,
   ⟨"BalancedDefensiveTeamsDraw", "draw", "recommended"⟩,
   ⟨"DisciplinedBalancedTeamsDraw", "draw", "recommended"⟩,
   ⟨"OffensiveTeamsOver", "over", "recommended"⟩,
   ⟨"AttackVsWeakDefenseOver", "over", "recommended"⟩,
   ⟨"StrongDefensesUnder", "under", "recommended"⟩,
   ⟨"DisciplinedLowAttackUnder", "under", "recommended"⟩]

/-- One column of the `MatchOutcome` CPD
(`BettingBayesianNetwork._create_match_outcome_cpd`, bayesian_model.py lines
137-189), as the triple `(p_home, p_draw, p_away)` appended for the parent
combination `(HomeStrength, AwayStrength, HomeStyle, AwayStyle)`. -/
def match_outcome_entry (hs aws hst ast : Fin 3) : Rat × Rat × Rat :=
  let home_advantage : Rat := 1/10
  let strength_diff : Rat := (((hs.val : Int) - (aws.val : Int) : Int) : Rat) * (2/10)
  let style_bonus : Rat :=
    if hst.val = 0 ∧ ast.val = 2 then 15/100
    else if hst.val = 2 ∧ ast.val = 0 then -(1/10)
    else 0
  let p_home := 4/10 + home_advantage + strength_diff + style_bonus
  let p_home := max (1/10) (min (8/10) p_home)
  let p_away := max (1/10) (min (6/10) (3/10 - strength_diff * (5/10)))
  let p_draw := 1 - p_home - p_away
  if p_draw < 1/10 then
    let p_draw : Rat := 1/10
    let total := p_home + p_away + p_draw
    (p_home / total, p_draw / total, p_away / total)
  else
    (p_home, p_draw, p_away)

/-- One leaf entry of the Bayesian prediction result (the inner dict built by
`BettingBayesianNetwork.predict`, bayesian_model.py). -/
structure BayesRec where
  not_recommended : Rat
  recommended : Rat
  confidence : String
deriving DecidableEq

/-- The confidence bucket computed in `predict`:
`high if p > 0.7 else medium if p > 0.5 else low`. -/
def leaf_confidence (p : Rat) : String :=
  if p > 7/10 then "high" else if p > 1/2 then "medium" else "low"

/-- The degraded default entry written by the `except` handler in `predict`. -/
def default_leaf : BayesRec := ⟨1/2, 1/2, "low"⟩

/-- Python dict assignment `recs[k] = v` on an insertion-ordered dict:
overwrite in place when the key exists, else append. -/
def dict_set (recs : List (String × BayesRec)) (k : String) (v : BayesRec) :
    List (String × BayesRec) :=
  if recs.any (fun p => p.1 == k) then
    recs.map (fun p => if p.1 == k then (k, v) else p)
  else recs ++ [(k, v)]

/-- Remove every occurrence of the pattern `p` from a character list,
left to right: models Python `str.replace(p, "")` for a non-empty pattern.
The fuel argument bounds the recursion and is instantiated with the string
length, which suffices since every step consumes at least one character. -/
def strip_occurrences (p : List Char) : Nat → List Char → List Char
  | 0, cs => cs
  | _ + 1, [] => []
  | n + 1, c :: cs =>
    if p.isPrefixOf (c :: cs) then strip_occurrences p n ((c :: cs).drop p.length)
    else c :: strip_occurrences p n cs

/-- The per-variable result key computed in `predict`:
`var.replace("Recommendation", "").lower()` with the two special cases
`homewin -> home_win` and `awaywin -> away_win`. -/
def rec_key (v : String) : String :=
  let rt := String.mk ((strip_occurrences "Recommendation".data v.data.length v.data).map Char.toLower)
  if rt == "homewin" then "home_win"
  else if rt == "awaywin" then "away_win"
  else rt

/-- The five leaf recommendation variables queried by `predict`, in loop
order (bayesian_model.py lines 317-323). -/
def rec_variables : List String :=
  ["HomeWinRecommendation", "AwayWinRecommendation", "DrawRecommendation",
   "OverRecommendation", "UnderRecommendation"]

/-- The `for var in rec_variables` loop of `BettingBayesianNetwork.predict`
(bayesian_model.py lines 325-349).  `query` abstracts
`self.inference.query(...).values` for a leaf variable (`none` models a
raised exception; the network itself lives in the external pgmpy library).
`last` carries the Python variable `rec_type`, which the source assigns
inside the `try` block only after a successful query: on a failed query the
`except` handler reads the value left over from the previous iteration, and
raises `NameError` when no iteration has succeeded yet. -/
def predict_loop (query : String → Option (Rat × Rat)) :
    List String → List (String × BayesRec) → Option String →
    Except String (List (String × BayesRec))
  | [], recs, _ => .ok recs
  | v :: vs, recs, last =>
    match query v with
    | some pq =>
      let rt := rec_key v
      predict_loop query vs (dict_set recs rt ⟨pq.1, pq.2, leaf_confidence pq.2⟩) (some rt)
    | none =>
      match last with
      | none => .error "NameError: rec_type is not defined"
      | some rt => predict_loop query vs (dict_set recs rt default_leaf) (some rt)

/-- Model of `BettingBayesianNetwork.predict`, parameterised by the inference oracle. -/
def predict (query : String → Option (Rat × Rat)) :
    Except String (List (String × BayesRec)) :=
  predict_loop query rec_variables [] none

/-- Round to the nearest integer, ties to even: the rounding applied by
Python float formatting. -/
def round_half_even (q : Rat) : Int :=
  let f := Rat.floor q
  let r := q - f
  if r < 1/2 then f else if 1/2 < r then f + 1 else if f % 2 = 0 then f else f + 1

/-- Python `f"{q:.1%}"`: the value as a percentage with one decimal digit. -/
def format_percent (q : Rat) : String :=
  let n := round_half_even (q * 1000)
  toString (n / 10) ++ "." ++ toString (n % 10) ++ "%"

/-- One entry of the hybrid result dict built by
`HybridBettingSystem._combine_recommendations` (main.py); `Option` fields
model dict keys that only some branches write. -/
structure HybridRec where
  bet_type : String
  home_team : String
  away_team : String
  recommendation : String
  probability : Rat
  confidence : String
  explanation : String
  concordance : Option String
  source : Option String
  rules_fired : Option (List String)
deriving DecidableEq

/-- The fixed bet-type list of `_combine_recommendations` (main.py). -/
def bet_types : List String := ["home_win", "away_win", "draw", "over", "under"]

/-- The loop body of `_combine_recommendations` (main.py lines 267-351) for
one bet type.  `bayesian_rec = none` models both a missing key and an empty
dict in `bayesian_results` (both falsy in the Python test
`if rules_rec and bayesian_rec`). -/
def combine_one (rules_recommendations : List BetRecommendationFact)
    (bayesian_rec : Option BayesRec) (bet_type home_team away_team : String) :
    HybridRec :=
  match List.find? (fun r => r.bet_type == bet_type) rules_recommendations,
        bayesian_rec with
  | some r, some b =>
    if (r.recommendation == "recommended") == decide (b.recommended > 1/2) then
      { bet_type := bet_type, home_team := home_team, away_team := away_team
        recommendation := if r.recommendation == "recommended" then "recommended"
                          else "not_recommended"
        probability := 6/10 * r.probability + 4/10 * b.recommended
        confidence := r.confidence
        explanation := r.explanation
        concordance := some "high", source := none
        rules_fired := some r.rules_fired }
    else
      { bet_type := bet_type, home_team := home_team, away_team := away_team
        recommendation := r.recommendation
        probability := r.probability
        confidence := "medium"
        explanation := r.explanation ++
          "\n[Nota: La red bayesiana sugiere lo contrario con " ++
          format_percent b.recommended ++ "]"
        concordance := some "low", source := none
        rules_fired := some r.rules_fired }
  | some r, none =>
    { bet_type := bet_type, home_team := home_team, away_team := away_team
      recommendation := r.recommendation
      probability := r.probability
      confidence := r.confidence
      explanation := r.explanation
      concordance := none, source := some "rules_only"
      rules_fired := some r.rules_fired }
  | none, some b =>
    let p := if b.recommended > 1/2 then b.recommended else 1 - b.recommended
    { bet_type := bet_type, home_team := home_team, away_team := away_team
      recommendation := if b.recommended > 1/2 then "recommended" else "not_recommended"
      probability := p
      confidence := if p > 7/10 then "high" else if p > 6/10 then "medium" else "low"
      explanation := "Según análisis probabilístico (" ++ format_percent p ++ ")"
      concordance := none, source := some "bayesian_only"
      rules_fired := none }
  | none, none =>
    { bet_type := bet_type, home_team := home_team, away_team := away_team
      recommendation := "not_evaluated"
      probability := 1/2
      confidence := "unavailable"
      explanation := "No hay suficiente información"
      concordance := none, source := some "none"
      rules_fired := none }

/-- Model of `HybridBettingSystem._combine_recommendations` (main.py lines 267-353):
one hybrid entry per bet type, keyed by bet type in loop order. -/
def combine_recommendations (rules_recommendations : List BetRecommendationFact)
    (bayesian_results : String → Option BayesRec) (home_team away_team : String) :
    List (String × HybridRec) :=
  bet_types.map (fun t =>
    (t, combine_one rules_recommendations (bayesian_results t) t home_team away_team))

/-- The `match_type` classification as worded by the specification (used to
compare the spec against `create_matchup_fact`): `attack_focused` when the
average attacking strength exceeds the average defensive strength by more
than 0.1 or either style is `offensive`; `defense_focused` when the reverse
margin holds or both styles are `defensive`; else `balanced`. -/
def spec_match_type (home_facts away_facts : TeamFact) : String :=
  let avg_attacking := (home_facts.attacking_strength + away_facts.attacking_strength) / 2
  let avg_defensive := (home_facts.defensive_strength + away_facts.defensive_strength) / 2
  if avg_attacking > avg_defensive + 1/10 ∨ home_facts.team_style = "offensive" ∨
     away_facts.team_style = "offensive" then "attack_focused"
  else if avg_defensive > avg_attacking + 1/10 ∨
      (home_facts.team_style = "defensive" ∧ away_facts.team_style = "defensive") then
    "defense_focused"
  else "balanced"

/-! ## Helper lemmas about the combiner -/

theorem combine_one_congr (rules₁ rules₂ : List BetRecommendationFact)
    (b : Option BayesRec) (t home away : String)
    (hf : List.find? (fun r => r.bet_type == t) rules₁ =
          List.find? (fun r => r.bet_type == t) rules₂) :
    combine_one rules₁ b t home away = combine_one rules₂ b t home away := by
  unfold combine_one
  rw [hf]

theorem lookup_combine_eq (rules : List BetRecommendationFact)
    (bayes : String → Option BayesRec) (home away t : String) :
    List.lookup t (combine_recommendations rules bayes home away) =
      if t ∈ bet_types then some (combine_one rules (bayes t) t home away)
      else none := by
  by_cases h1 : t = "home_win"
  · subst h1; rfl
  by_cases h2 : t = "away_win"
  · subst h2; rfl
  by_cases h3 : t = "draw"
  · subst h3; rfl
  by_cases h4 : t = "over"
  · subst h4; rfl
  by_cases h5 : t = "under"
  · subst h5; rfl
  have e1 : (t == "home_win") = false := beq_eq_false_iff_ne.mpr h1
  have e2 : (t == "away_win") = false := beq_eq_false_iff_ne.mpr h2
  have e3 : (t == "draw") = false := beq_eq_false_iff_ne.mpr h3
  have e4 : (t == "over") = false := beq_eq_false_iff_ne.mpr h4
  have e5 : (t == "under") = false := beq_eq_false_iff_ne.mpr h5
  simp [combine_recommendations, bet_types, List.lookup, e1, e2, e3, e4, e5,
    h1, h2, h3, h4, h5]

theorem combine_one_bet_type (rules : List BetRecommendationFact)
    (b : Option BayesRec) (t home away : String) :
    (combine_one rules b t home away).bet_type = t := by
  unfold combine_one
  cases List.find? (fun r => r.bet_type == t) rules <;> cases b <;>
    dsimp only <;> (try split) <;> rfl

theorem combine_one_home_team (rules : List BetRecommendationFact)
    (b : Option BayesRec) (t home away : String) :
    (combine_one rules b t home away).home_team = home := by
  unfold combine_one
  cases List.find? (fun r => r.bet_type == t) rules <;> cases b <;>
    dsimp only <;> (try split) <;> rfl

theorem combine_one_away_team (rules : List BetRecommendationFact)
    (b : Option BayesRec) (t home away : String) :
    (combine_one rules b t home away).away_team = away := by
  unfold combine_one
  cases List.find? (fun r => r.bet_type == t) rules <;> cases b <;>
    dsimp only <;> (try split) <;> rfl

/-! ## C1: agreement case of the hybrid combiner -/

/-- C1: when a rule recommendation and a (non-empty) Bayesian entry both
exist for a bet type and their decisions agree (the rule says `recommended`
iff the Bayesian recommended probability exceeds 0.5), the combined entry
has probability `0.6*rule + 0.4*bayes`, the rule's confidence, the rule's
explanation, and concordance `high`. -/
theorem hybrid_agreement
    (rules : List BetRecommendationFact) (bayes : String → Option BayesRec)
    (t home away : String) (r : BetRecommendationFact) (b : BayesRec)
    (hmem : t ∈ bet_types)
    (hfind : List.find? (fun x => x.bet_type == t) rules = some r)
    (hbay : bayes t = some b)
    (hagree : r.recommendation = "recommended" ↔ b.recommended > 1/2) :
    List.lookup t (combine_recommendations rules bayes home away) =
      some (combine_one rules (bayes t) t home away) ∧
    (combine_one rules (bayes t) t home away).probability =
      6/10 * r.probability + 4/10 * b.recommended ∧
    (combine_one rules (bayes t) t home away).confidence = r.confidence ∧
    (combine_one rules (bayes t) t home away).explanation = r.explanation ∧
    (combine_one rules (bayes t) t home away).concordance = some "high" := by
  have hcond : (r.recommendation == "recommended") = decide (b.recommended > 1/2) := by
    rcases Decidable.em (r.recommendation = "recommended") with hr | hr <;>
      rcases Decidable.em (b.recommended > 1/2) with hb | hb
    · rw [beq_iff_eq.mpr hr, decide_eq_true hb]
    · exact absurd (hagree.mp hr) hb
    · exact absurd (hagree.mpr hb) hr
    · rw [beq_eq_false_iff_ne.mpr hr, decide_eq_false hb]
  refine ⟨by rw [lookup_combine_eq, if_pos hmem], ?_, ?_, ?_, ?_⟩ <;>
    · simp only [combine_one, hfind, hbay]
      rw [hcond]
      simp

def rules_w1 : List BetRecommendationFact :=
  [⟨"home_win", "Casa", "Fuera", "recommended", "high", 4/5, "regla", ["R1"]⟩]

def bayes_w1 : String → Option BayesRec :=
  fun t => if t == "home_win" then some ⟨2/5, 3/5, "medium"⟩ else none

/-- Witness for C1: rule probability 0.8 with Bayesian 0.6 combine to 0.72. -/
theorem hybrid_agreement_witness :
    (combine_one rules_w1 (bayes_w1 "home_win") "home_win" "Casa" "Fuera").probability = 18/25 ∧
    (combine_one rules_w1 (bayes_w1 "home_win") "home_win" "Casa" "Fuera").confidence = "high" ∧
    (combine_one rules_w1 (bayes_w1 "home_win") "home_win" "Casa" "Fuera").explanation = "regla" ∧
    (combine_one rules_w1 (bayes_w1 "home_win") "home_win" "Casa" "Fuera").concordance = some "high" := by
  have h := hybrid_agreement rules_w1 bayes_w1 "home_win" "Casa" "Fuera"
      ⟨"home_win", "Casa", "Fuera", "recommended", "high", 4/5, "regla", ["R1"]⟩
      ⟨2/5, 3/5, "medium"⟩ (by simp [bet_types]) rfl rfl
      ⟨fun _ => by norm_num, fun _ => rfl⟩
  exact ⟨h.2.1.trans (by norm_num), h.2.2.1, h.2.2.2.1, h.2.2.2.2⟩

/-! ## C4: disagreement case of the hybrid combiner -/

/-- C4: when both models answer for a bet type but their decisions disagree,
the combined entry keeps the rule's decision and probability, downgrades the
confidence to `medium` (whatever the rule's confidence was, in particular
`high`), appends to the rule's explanation a note citing the network's
opposing recommended probability as a percentage, and sets concordance
`low`. -/
theorem hybrid_disagreement
    (rules : List BetRecommendationFact) (bayes : String → Option BayesRec)
    (t home away : String) (r : BetRecommendationFact) (b : BayesRec)
    (hmem : t ∈ bet_types)
    (hfind : List.find? (fun x => x.bet_type == t) rules = some r)
    (hbay : bayes t = some b)
    (hdis : ¬(r.recommendation = "recommended" ↔ b.recommended > 1/2)) :
    List.lookup t (combine_recommendations rules bayes home away) =
      some (combine_one rules (bayes t) t home away) ∧
    (combine_one rules (bayes t) t home away).recommendation = r.recommendation ∧
    (combine_one rules (bayes t) t home away).probability = r.probability ∧
    (combine_one rules (bayes t) t home away).confidence = "medium" ∧
    (combine_one rules (bayes t) t home away).concordance = some "low" ∧
    (combine_one rules (bayes t) t home away).explanation = r.explanation ++
      "\n[Nota: La red bayesiana sugiere lo contrario con " ++
      format_percent b.recommended ++ "]" := by
  have hcond : ((r.recommendation == "recommended") == decide (b.recommended > 1/2)) = false := by
    rcases Decidable.em (r.recommendation = "recommended") with hr | hr <;>
      rcases Decidable.em (b.recommended > 1/2) with hb | hb
    · exact absurd ⟨fun _ => hb, fun _ => hr⟩ hdis
    · rw [beq_iff_eq.mpr hr, decide_eq_false hb]; rfl
    · rw [beq_eq_false_iff_ne.mpr hr, decide_eq_true hb]; rfl
    · exact absurd ⟨fun h => absurd h hr, fun h => absurd h hb⟩ hdis
  refine ⟨by rw [lookup_combine_eq, if_pos hmem], ?_, ?_, ?_, ?_, ?_⟩ <;>
    · simp only [combine_one, hfind, hbay]
      rw [hcond]
      simp

def rules_w4 : List BetRecommendationFact :=
  [⟨"over", "Casa", "Fuera", "recommended", "high", 3/4, "regla over", ["R2"]⟩]

def bayes_w4 : String → Option BayesRec :=
  fun t => if t == "over" then some ⟨7/10, 3/10, "low"⟩ else none

/-- Witness for C4: a rule with confidence `high` recommending `over`
against a Bayesian entry with recommended probability 0.3. -/
theorem hybrid_disagreement_witness :
    (combine_one rules_w4 (bayes_w4 "over") "over" "Casa" "Fuera").recommendation = "recommended" ∧
    (combine_one rules_w4 (bayes_w4 "over") "over" "Casa" "Fuera").probability = 3/4 ∧
    (combine_one rules_w4 (bayes_w4 "over") "over" "Casa" "Fuera").confidence = "medium" ∧
    (combine_one rules_w4 (bayes_w4 "over") "over" "Casa" "Fuera").concordance = some "low" ∧
    (combine_one rules_w4 (bayes_w4 "over") "over" "Casa" "Fuera").explanation = "regla over" ++
      "\n[Nota: La red bayesiana sugiere lo contrario con " ++
      format_percent (3/10) ++ "]" := by
  have h := hybrid_disagreement rules_w4 bayes_w4 "over" "Casa" "Fuera"
      ⟨"over", "Casa", "Fuera", "recommended", "high", 3/4, "regla over", ["R2"]⟩
      ⟨7/10, 3/10, "low"⟩ (by simp [bet_types]) rfl rfl
      (fun hiff => by have := hiff.mp rfl; norm_num at this)
  exact ⟨h.2.1, h.2.2.1, h.2.2.2.1, h.2.2.2.2.1, h.2.2.2.2.2⟩

/-! ## C5: the combiner uses only the first matching rule recommendation -/

/-- C5: the combined output for a bet type depends on the rule recommendation
list only through the first entry whose `bet_type` matches; two lists with
the same first match (in particular, a list with extra later entries for the
same bet type) give the same combined entry. -/
theorem combiner_first_match_only (rules₁ rules₂ : List BetRecommendationFact)
    (bayes : String → Option BayesRec) (t home away : String)
    (hf : List.find? (fun r => r.bet_type == t) rules₁ =
          List.find? (fun r => r.bet_type == t) rules₂) :
    List.lookup t (combine_recommendations rules₁ bayes home away) =
      List.lookup t (combine_recommendations rules₂ bayes home away) := by
  rw [lookup_combine_eq, lookup_combine_eq]
  split
  · exact congrArg some (combine_one_congr rules₁ rules₂ (bayes t) t home away hf)
  · rfl

def rules_w5a : List BetRecommendationFact :=
  [⟨"draw", "Casa", "Fuera", "recommended", "medium", 3/5, "primera", ["R0"]⟩,
   ⟨"draw", "Casa", "Fuera", "recommended", "high", 3/4, "segunda", ["R9"]⟩]

def rules_w5b : List BetRecommendationFact :=
  [⟨"draw", "Casa", "Fuera", "recommended", "medium", 3/5, "primera", ["R0"]⟩]

/-- Witness for C5: appending a second `draw` recommendation after the first
one leaves the combined `draw` entry unchanged. -/
theorem combiner_first_match_only_witness :
    List.lookup "draw" (combine_recommendations rules_w5a (fun _ => none) "Casa" "Fuera") =
      List.lookup "draw" (combine_recommendations rules_w5b (fun _ => none) "Casa" "Fuera") :=
  combiner_first_match_only rules_w5a rules_w5b (fun _ => none) "draw" "Casa" "Fuera" rfl

/-! ## C6: neither model answers -/

/-- C6: when no rule recommendation matches a bet type and the Bayesian
result map has no (non-empty) entry for it, the combiner returns — rather
than raises — an entry with decision `not_evaluated`, probability 0.5 and
confidence `unavailable`. -/
theorem combiner_neither_available (rules : List BetRecommendationFact)
    (bayes : String → Option BayesRec) (t home away : String)
    (hmem : t ∈ bet_types)
    (hfind : List.find? (fun r => r.bet_type == t) rules = none)
    (hbay : bayes t = none) :
    List.lookup t (combine_recommendations rules bayes home away) =
      some { bet_type := t, home_team := home, away_team := away
             recommendation := "not_evaluated", probability := 1/2
             confidence := "unavailable"
             explanation := "No hay suficiente información"
             concordance := none, source := some "none", rules_fired := none } := by
  rw [lookup_combine_eq, if_pos hmem]
  simp [combine_one, hfind, hbay]

/-- Witness for C6 at the `draw` bet type with no rules and no Bayesian
results at all. -/
theorem combiner_neither_available_witness :
    List.lookup "draw" (combine_recommendations [] (fun _ => none) "Casa" "Fuera") =
      some { bet_type := "draw", home_team := "Casa", away_team := "Fuera"
             recommendation := "not_evaluated", probability := 1/2
             confidence := "unavailable"
             explanation := "No hay suficiente información"
             concordance := none, source := some "none", rules_fired := none } :=
  combiner_neither_available [] (fun _ => none) "draw" "Casa" "Fuera"
    (by simp [bet_types]) rfl rfl

/-! ## C10: shape of the combiner's output map -/

/-- C10: for every input, the combiner returns a map whose key list is
exactly the five bet types, and every entry carries its key as `bet_type`
and the given team names. -/
theorem combine_output_shape (rules : List BetRecommendationFact)
    (bayes : String → Option BayesRec) (home away : String) :
    (combine_recommendations rules bayes home away).map Prod.fst = bet_types ∧
    (combine_recommendations rules bayes home away).all
      (fun p => p.2.bet_type == p.1 && (p.2.home_team == home && p.2.away_team == away)) = true := by
  constructor
  · rfl
  · simp [combine_recommendations, bet_types, List.all,
      combine_one_bet_type, combine_one_home_team, combine_one_away_team]

/-! ## C2: failure of one Bayesian leaf inference -/

/-- Inference oracle whose query raises only for the second leaf variable
(`AwayWinRecommendation`) and returns the distribution (0.4, 0.6) for every
other leaf. -/
def q_fail_second : String → Option (Rat × Rat) :=
  fun v => if v == "AwayWinRecommendation" then none else some (2/5, 3/5)

/-- Inference oracle whose query raises only for the first leaf variable
(`HomeWinRecommendation`). -/
def q_fail_first : String → Option (Rat × Rat) :=
  fun v => if v == "HomeWinRecommendation" then none else some (2/5, 3/5)

/-- C2 (code evaluated at the failing input): when inference fails for the
second leaf only, `predict` returns a map in which the `home_win` entry —
computed successfully one iteration earlier — has been overwritten with the
0.5/0.5 default and there is no `away_win` entry at all; and when inference
fails for the first leaf, `predict` raises `NameError` (the `except` handler
reads `rec_type` before any iteration has assigned it), aborting all five
leaves.  This contradicts the claimed isolation of a single leaf failure. -/
theorem bayes_leaf_failure_bug :
    predict q_fail_second =
      .ok [("home_win", default_leaf), ("draw", ⟨2/5, 3/5, "medium"⟩),
           ("over", ⟨2/5, 3/5, "medium"⟩), ("under", ⟨2/5, 3/5, "medium"⟩)] ∧
    predict q_fail_first = .error "NameError: rec_type is not defined" := by
  constructor
  · rw [show ("medium" : String) = leaf_confidence (3/5) from
      Eq.symm (by norm_num [leaf_confidence])]
    rfl
  · rfl

/-! ## C3: bounds of the MatchOutcome conditional probability table -/

set_option maxHeartbeats 2000000 in
/-- C3 (amended): for each of the 81 parent combinations the three entries
`(p_home, p_draw, p_away)` sum to exactly 1, `p_home ∈ [0.1, 0.8]` and
`p_away ∈ [0.1, 0.6]`, but the draw entry is only bounded below by `1/11`
(the 0.1 draw floor is applied before renormalisation, which can push it
below 0.1 again). -/
theorem match_outcome_cpd_bounds (hs aws hst ast : Fin 3) :
    (match_outcome_entry hs aws hst ast).1 +
      (match_outcome_entry hs aws hst ast).2.1 +
      (match_outcome_entry hs aws hst ast).2.2 = 1 ∧
    1/10 ≤ (match_outcome_entry hs aws hst ast).1 ∧
    (match_outcome_entry hs aws hst ast).1 ≤ 8/10 ∧
    1/10 ≤ (match_outcome_entry hs aws hst ast).2.2 ∧
    (match_outcome_entry hs aws hst ast).2.2 ≤ 6/10 ∧
    1/11 ≤ (match_outcome_entry hs aws hst ast).2.1 := by
  fin_cases hs <;> fin_cases aws <;> fin_cases hst <;> fin_cases ast <;>
    norm_num [match_outcome_entry, max_def, min_def]

/-- Counterexample for C3 as stated: at the parent combination
`HomeStrength=medium, AwayStrength=weak, HomeStyle=offensive,
AwayStyle=defensive` the renormalised draw probability is `1/11 < 0.1`. -/
theorem match_outcome_draw_below_floor :
    (match_outcome_entry 1 0 0 2).2.1 = 1/11 ∧ ((1:Rat)/11 < 1/10) := by
  constructor
  · norm_num [match_outcome_entry, max_def, min_def]
  · norm_num

/-! ## C7: the match_type classification -/

set_option maxHeartbeats 2000000 in
/-- C7 (amended): the constructed matchup's `match_type` is
`defense_focused` when both styles are `defensive` or the defensive average
exceeds the attacking average by more than 0.1; otherwise `attack_focused`
when the attacking average exceeds the defensive average by more than 0.1 or
either style is `offensive`; otherwise `balanced`.  (The defense conditions
take priority, unlike in the specification's wording.) -/
theorem matchup_match_type_formula (home_team away_team : String)
    (home_facts away_facts : TeamFact) :
    (create_matchup_fact home_team away_team home_facts away_facts).match_type =
      (if (home_facts.team_style = "defensive" ∧ away_facts.team_style = "defensive") ∨
          (home_facts.defensive_strength + away_facts.defensive_strength) / 2 >
            (home_facts.attacking_strength + away_facts.attacking_strength) / 2 + 1/10 then
        "defense_focused"
      else if (home_facts.attacking_strength + away_facts.attacking_strength) / 2 >
            (home_facts.defensive_strength + away_facts.defensive_strength) / 2 + 1/10 ∨
          home_facts.team_style = "offensive" ∨ away_facts.team_style = "offensive" then
        "attack_focused"
      else "balanced") := by
  simp only [create_matchup_fact]
  rcases Decidable.em (home_facts.team_style = "offensive") with hHO | hHO <;>
  rcases Decidable.em (away_facts.team_style = "offensive") with hAO | hAO <;>
  rcases Decidable.em (home_facts.team_style = "defensive") with hHD | hHD <;>
  rcases Decidable.em (away_facts.team_style = "defensive") with hAD | hAD <;>
  rcases Decidable.em ((home_facts.attacking_strength + away_facts.attacking_strength) / 2 >
      (home_facts.defensive_strength + away_facts.defensive_strength) / 2 + 1/10) with hc1 | hc1 <;>
  rcases Decidable.em ((home_facts.defensive_strength + away_facts.defensive_strength) / 2 >
      (home_facts.attacking_strength + away_facts.attacking_strength) / 2 + 1/10) with hc2 | hc2 <;>
  first
  | (simp_all; done)
  | (simp_all; exfalso; linarith)
  | (simp_all; split_ifs <;> first | rfl | linarith | simp_all)

/-- A home team much stronger in defence than in attack, with an
`offensive` declared style. -/
def cx_home : TeamFact :=
  ⟨"CasaX", 1/10, 9/10, 1/2, 3/2, 1, 0, 1/2, "offensive", 0⟩

/-- An away team much stronger in defence than in attack, `balanced` style. -/
def cx_away : TeamFact :=
  ⟨"FueraX", 1/10, 9/10, 1/2, 3/2, 1, 0, 1/2, "balanced", 0⟩

/-- Counterexample for C7 as stated: the home style is `offensive`, so the
claim requires `attack_focused`, but the code keeps `defense_focused`
because the defensive margin classification is not overridden by the style
rule. -/
theorem matchup_match_type_spec_mismatch :
    cx_home.team_style = "offensive" ∧
    (create_matchup_fact "CasaX" "FueraX" cx_home cx_away).match_type = "defense_focused" ∧
    spec_match_type cx_home cx_away = "attack_focused" := by
  refine ⟨rfl, ?_, ?_⟩ <;>
    norm_num [create_matchup_fact, spec_match_type, cx_home, cx_away] <;>
    (intro h; exact absurd h (by decide))

/-! ## C8: recommendation creation by the rule engine -/

/-- C8: every rule of the catalogue passes decision `recommended` to
`_create_recommendation` (no rule emits `not_recommended`); the probability
of the created fact is determined by its confidence as
`{high: 0.75, medium: 0.60, low: 0.55}` with default `0.50` for any other
confidence value; and each firing appends exactly one fact, retaining all
previously recorded ones. -/
theorem rule_recommendation_creation :
    (rule_catalogue.all (fun r => r.decision == "recommended")) = true ∧
    probability_map "high" = 3/4 ∧ probability_map "medium" = 6/10 ∧
    probability_map "low" = 11/20 ∧
    (∀ c : String, c ≠ "high" → c ≠ "medium" → c ≠ "low" → probability_map c = 1/2) ∧
    (∀ (recs : List BetRecommendationFact) (bt h a conf expl rn : String),
      conf = "high" ∨ conf = "medium" ∨ conf = "low" →
      create_recommendation recs bt h a "recommended" conf expl rn =
        .ok (recs ++ [{ bet_type := bt, home_team := h, away_team := a,
                        recommendation := "recommended", confidence := conf,
                        probability := probability_map conf, explanation := expl,
                        rules_fired := [rn] }])) := by
  refine ⟨rfl, rfl, rfl, rfl, ?_, ?_⟩
  · intro c h1 h2 h3
    simp [probability_map, h1, h2, h3]
  · rintro recs bt h a conf expl rn (rfl | rfl | rfl) <;> rfl

/-- Witness for C8: a firing with confidence `high` appends one fact with
probability 0.75 to an empty recommendation list, and an unmapped
confidence value maps to probability 0.5. -/
theorem rule_recommendation_creation_witness :
    create_recommendation [] "home_win" "H" "A" "recommended" "high" "expl" "Regla" =
      .ok [{ bet_type := "home_win", home_team := "H", away_team := "A",
             recommendation := "recommended", confidence := "high",
             probability := probability_map "high", explanation := "expl",
             rules_fired := ["Regla"] }] ∧
    probability_map "otra" = 1/2 := by
  constructor
  · have h := rule_recommendation_creation.2.2.2.2.2 [] "home_win" "H" "A"
      "high" "expl" "Regla" (Or.inl rfl)
    simpa using h
  · exact rule_recommendation_creation.2.2.2.2.1 "otra" (by decide) (by decide) (by decide)

/-! ## C9: the overall-strength invariant of constructed team facts -/

/-- C9 (amended): if the raw summary's attacking, defensive and overall
strengths already lie in `[0,1]` and satisfy `overall = (att + def)/2` — as
summaries produced by the data processor do — then the constructed team
fact satisfies `overall_strength = (attacking_strength +
defensive_strength)/2` exactly.  (`from_team_summary` clamps but never
recomputes `overall_strength`, so this does not hold for arbitrary raw
summaries.) -/
theorem overall_strength_invariant_conditional
    (a d : Rat) (s : TeamSummary) (t : TeamFact)
    (ha : s.attacking_strength = some a)
    (hd : s.defensive_strength = some d)
    (ho : s.overall_strength = some ((a + d) / 2))
    (ha0 : 0 ≤ a) (ha1 : a ≤ 1) (hd0 : 0 ≤ d) (hd1 : d ≤ 1)
    (ht : from_team_summary s = .ok t) :
    t.overall_strength = (t.attacking_strength + t.defensive_strength) / 2 := by
  have hca : clamp01 a = a := by
    unfold clamp01; rw [min_eq_right ha1, max_eq_right ha0]
  have hcd : clamp01 d = d := by
    unfold clamp01; rw [min_eq_right hd1, max_eq_right hd0]
  have hco : clamp01 ((a + d) / 2) = (a + d) / 2 := by
    unfold clamp01
    rw [min_eq_right (by linarith), max_eq_right (by linarith)]
  rcases hteam : s.team with _ | nm
  · simp [from_team_summary, hteam] at ht
  · simp only [from_team_summary, hteam, ha, hd, ho, Except.ok.injEq] at ht
    subst ht
    dsimp only
    rw [hca, hcd, hco]

/-- A raw summary whose strength fields are in range but whose overall
strength is not the average of the other two. -/
def s_bad : TeamSummary :=
  { team := some "X", attacking_strength := some 1,
    defensive_strength := some 1, overall_strength := some (1/5) }

/-- Counterexample for C9 as stated: `from_team_summary` accepts `s_bad`
and stores `overall_strength = 0.2` although
`(attacking_strength + defensive_strength)/2 = 1`. -/
theorem overall_strength_not_recomputed :
    from_team_summary s_bad =
      .ok { team := "X", attacking_strength := 1, defensive_strength := 1,
            overall_strength := 1/5, goals_per_match := 3/2,
            goals_conceded_per_match := 1, goal_difference_per_match := 0,
            discipline_rating := 1/2, team_style := "balanced",
            cleansheet_rate := 0 } ∧
    ¬((1:Rat)/5 = (1 + 1) / 2) := by
  constructor
  · norm_num [from_team_summary, s_bad, clamp01, min_def, max_def]
  · norm_num

/-- A raw summary satisfying the hypotheses of the amended C9. -/
def s_good : TeamSummary :=
  { team := some "W", attacking_strength := some (1/2),
    defensive_strength := some (1/4), overall_strength := some (3/8) }

/-- The team fact constructed from `s_good`. -/
def t_good : TeamFact := ⟨"W", 1/2, 1/4, 3/8, 3/2, 1, 0, 1/2, "balanced", 0⟩

/-- Witness for C9 (amended) at a concrete consistent summary. -/
theorem overall_strength_invariant_witness :
    t_good.overall_strength = (t_good.attacking_strength + t_good.defensive_strength) / 2 :=
  overall_strength_invariant_conditional (1/2) (1/4) s_good t_good rfl rfl
    (by norm_num [s_good]) (by norm_num) (by norm_num) (by norm_num) (by norm_num)
    (by norm_num [from_team_summary, s_good, t_good, clamp01, min_def, max_def])

end SportsExpert
